import Mathlib

/-!
Verification of the termai command-line client (src/termai.py) against its
natural-language specification.  The script is embedded shallowly: JSON
values are an inductive type, the filesystem and the single HTTP exchange
are explicit state, and every observable effect of a run (prints, prompts,
file writes, the one POST) is recorded in an event trace.  Python dictionary
and list accesses, which may raise, are modelled in the Except monad; an
uncaught exception inside the try block of main is the error case, matching
the top-level except handler of the script.
-/

namespace Termai

/-- JSON values as produced by json.load.  Numbers carry their decimal
literal; the script never computes with them (they are only copied into the
outbound payload and, in debug mode, interpolated into a message), so the
literal is all the embedding needs. -/
inductive JSON where
  | null
  | bool (b : Bool)
  | num (lit : String)
  | str (s : String)
  | arr (elems : List JSON)
  | obj (fields : List (String × JSON))

/-- Python whitespace characters stripped by str.strip(): space, tab,
newline, carriage return, vertical tab, form feed (by code point). -/
def isPyWhitespace (c : Char) : Bool :=
  c.toNat == 32 || c.toNat == 9 || c.toNat == 10 || c.toNat == 13 ||
  c.toNat == 11 || c.toNat == 12

/-- Python str.strip() with no arguments: remove leading AND trailing
whitespace. -/
def pyStrip (s : String) : String :=
  String.mk (((s.data.dropWhile isPyWhitespace).reverse.dropWhile isPyWhitespace).reverse)

/-- Substring test on character lists, for the Python expression
key in s when s is a str. -/
def infixAux (key : List Char) : List Char → Bool
  | [] => key.isEmpty
  | c :: t => key.isPrefixOf (c :: t) || infixAux key t

/-- Python key in s for strings: substring containment. -/
def strContainsSub (s key : String) : Bool :=
  infixAux key.data s.data

/-- Association-list lookup used for Python dict access (insertion order
preserved, first binding of a key wins, as dicts hold unique keys). -/
def fieldLookup : List (String × JSON) → String → Option JSON
  | [], _ => none
  | (k, v) :: rest, key => if k = key then some v else fieldLookup rest key

/-- Field lookup on a JSON value; none when the value is not an object or
the key is absent. -/
def JSON.getField : JSON → String → Option JSON
  | .obj fields, key => fieldLookup fields key
  | _, _ => none

/-- Python dict assignment d[key] = v on an object: replace the binding in
place, or append a fresh one. -/
def setFieldList : List (String × JSON) → String → JSON → List (String × JSON)
  | [], key, v => [(key, v)]
  | (k, w) :: rest, key, v =>
    if k = key then (key, v) :: rest else (k, w) :: setFieldList rest key v

/-- Dict assignment lifted to JSON values (the script only assigns into the
copied default-config dict, which is an object). -/
def setField : JSON → String → JSON → JSON
  | .obj fields, key, v => .obj (setFieldList fields key v)
  | j, _, _ => j

/-- Python d.get(key, default) on the fields of an object. -/
def dget (fields : List (String × JSON)) (key : String) (dflt : JSON) : JSON :=
  (fieldLookup fields key).getD dflt

/-- Membership of the string key in a JSON list under Python ==: a list
element equals a str only when it is that very str. -/
def strElem (key : String) : JSON → Bool
  | .str s => s == key
  | _ => false

/-- Python key in x for a string key: dict key test, list membership,
substring test on str; TypeError (modelled as error) on the remaining
types. -/
def pyContains : JSON → String → Except Unit Bool
  | .obj fields, key => .ok (fieldLookup fields key).isSome
  | .arr elems, key => .ok (elems.any (strElem key))
  | .str s, key => .ok (strContainsSub s key)
  | _, _ => .error ()

/-- Python x[key] for a string key: dict lookup (KeyError when absent);
TypeError on every other type.  Both exceptions are the error case. -/
def pyGetStr : JSON → String → Except Unit JSON
  | .obj fields, key =>
    match fieldLookup fields key with
    | some v => .ok v
    | none => .error ()
  | _, _ => .error ()

/-- Python x[0]: first element of a list (IndexError when empty), first
character of a str as a one-character str (IndexError when empty); dicts
raise KeyError for the absent integer key, other types TypeError. -/
def pyGetFirst : JSON → Except Unit JSON
  | .arr (e :: _) => .ok e
  | .arr [] => .error ()
  | .str s =>
    match s.data with
    | [] => .error ()
    | c :: _ => .ok (.str (String.mk [c]))
  | _ => .error ()

/-- Python x.strip(): only str has the method; anything else raises
AttributeError. -/
def pyStripJ : JSON → Except Unit String
  | .str s => .ok (pyStrip s)
  | _ => .error ()

/-- Quoting of a string as CPython repr renders it (quotes written via
code 39). -/
def quoteStr (s : String) : String := "\x27" ++ s ++ "\x27"

/-- Python repr of a JSON value.  The script never relies on repr details
of containers; this printer mirrors the usual CPython output for the shapes
that occur. -/
def pyRepr : JSON → String
  | .null => "None"
  | .bool true => "True"
  | .bool false => "False"
  | .num lit => lit
  | .str s => quoteStr s
  | .arr elems =>
    "[" ++ String.intercalate ", " (elems.attach.map (fun e => pyRepr e.1)) ++ "]"
  | .obj fields =>
    "\x7b" ++
      String.intercalate ", "
        (fields.attach.map (fun f => quoteStr f.1.1 ++ ": " ++ pyRepr f.1.2)) ++
      "\x7d"
decreasing_by
  all_goals
    first
    | (have h := List.sizeOf_lt_of_mem e.2
       simp only [JSON.arr.sizeOf_spec]
       omega)
    | (have h := List.sizeOf_lt_of_mem f.2
       obtain ⟨⟨a, b⟩, hm⟩ := f
       simp_all
       omega)

/-- Python str() as used by f-string interpolation: identity on str,
repr-like on everything else. -/
def pyStr : JSON → String
  | .str s => s
  | j => pyRepr j

/-- State of the data directory.  configFile is none when config.json is
absent, some (.error ()) when it exists but json.load raises
JSONDecodeError, some (.ok j) when it parses to j.  legacyKey holds the raw
content of the legacy key file when that file exists; legacyBackup the
content of key.bak. -/
structure FS where
  configFile : Option (Except Unit JSON)
  legacyKey : Option String
  legacyBackup : Option String

/-- DEFAULT_CONFIG from the script, lines 24 to 39. -/
def DEFAULT_CONFIG : JSON :=
  .obj [
    ("api_key", .str ""),
    ("model_name", .str "gemini-2.5-flash"),
    ("system_instruction", .str
      ("You are a CLI assistant specific to Termux. " ++
       "Do NOT use Markdown. Do NOT use backticks. " ++
       "Do NOT use bolding. Just write plain text. " ++
       "Keep answers concise.")),
    ("generation_config", .obj [
      ("temperature", .num "0.7"),
      ("top_p", .num "0.9"),
      ("top_k", .num "40"),
      ("maxOutputTokens", .num "1024")])]

/-- The dictionary DEFAULT_CONFIG.copy() with api_key assigned, as built in
load_config lines 79 and 80. -/
def withKey (k : String) : JSON := setField DEFAULT_CONFIG "api_key" (.str k)

/-- Outcome of load_config: the returned configuration or the sys.exit
code, the filesystem afterwards, and which observable steps ran (legacy
migration with its rename, the interactive prompt, the config write, the
invalid-JSON error message). -/
structure LoadOut where
  result : Except Nat JSON
  fs : FS
  migrated : Bool
  prompted : Bool
  wrote : Bool
  invalidMsg : Bool

/-- load_config from the script, lines 41 to 87.  The interactive answer
the user would give to input() is the promptInput parameter; input().strip()
is pyStrip promptInput. -/
def load_config (fs : FS) (promptInput : String) : LoadOut :=
  match fs.configFile with
  | some (.ok j) => ⟨.ok j, fs, false, false, false, false⟩
  | some (.error _) => ⟨.error 1, fs, false, false, false, true⟩
  | none =>
    match fs.legacyKey with
    | some content =>
      -- read and strip the legacy key, then rename the file to key.bak
      let key0 := pyStrip content
      let fs1 : FS := { fs with legacyKey := none, legacyBackup := some content }
      if key0 = "" then
        -- first-run prompt
        let key1 := pyStrip promptInput
        if key1 = "" then ⟨.error 1, fs1, true, true, false, false⟩
        else
          ⟨.ok (withKey key1),
           { fs1 with configFile := some (.ok (withKey key1)) },
           true, true, true, false⟩
      else
        ⟨.ok (withKey key0),
         { fs1 with configFile := some (.ok (withKey key0)) },
         true, false, true, false⟩
    | none =>
      let key1 := pyStrip promptInput
      if key1 = "" then ⟨.error 1, fs, false, true, false, false⟩
      else
        ⟨.ok (withKey key1),
         { fs with configFile := some (.ok (withKey key1)) },
         false, true, true, false⟩

/-- What the renderer in main, lines 176 to 193, decides to print for a
parsed 200 response. -/
inductive RenderOut where
  | blockedExit (reason : JSON)
  | textOut (s : String)
  | noContent
  | invalidFormat

/-- Evaluation of the Python condition on line 177, with its short
circuit: promptFeedback in data and blockReason in data[promptFeedback]. -/
def blockedCheck (data : JSON) : Except Unit Bool :=
  match pyContains data "promptFeedback" with
  | .error e => .error e
  | .ok false => .ok false
  | .ok true =>
    match pyGetStr data "promptFeedback" with
    | .error e => .error e
    | .ok pf => pyContains pf "blockReason"

/-- The success print of line 187 given the content object:
cand[content][parts][0][text].strip(). -/
def renderContent (content : JSON) : Except Unit RenderOut :=
  match pyGetStr content "parts" with
  | .error e => .error e
  | .ok parts =>
    match pyGetFirst parts with
    | .error e => .error e
    | .ok p =>
      match pyGetStr p "text" with
      | .error e => .error e
      | .ok t =>
        match pyStripJ t with
        | .error e => .error e
        | .ok s => .ok (.textOut s)

/-- The candidates branch of the renderer, lines 182 to 193. -/
def renderCandidates (data : JSON) : Except Unit RenderOut :=
  match pyContains data "candidates" with
  | .error e => .error e
  | .ok false => .ok .invalidFormat
  | .ok true =>
    match pyGetStr data "candidates" with
    | .error e => .error e
    | .ok cands =>
      match pyGetFirst cands with
      | .error e => .error e
      | .ok cand =>
        match pyContains cand "content" with
        | .error e => .error e
        | .ok false => .ok .noContent
        | .ok true =>
          match pyGetStr cand "content" with
          | .error e => .error e
          | .ok content => renderContent content

/-- The whole renderer on the parsed body, lines 176 to 193.  An error is
a Python exception that propagates to the top-level except handler. -/
def render (data : JSON) : Except Unit RenderOut :=
  match blockedCheck data with
  | .error e => .error e
  | .ok true =>
    match pyGetStr data "promptFeedback" with
    | .error e => .error e
    | .ok pf =>
      match pyGetStr pf "blockReason" with
      | .error e => .error e
      | .ok r => .ok (.blockedExit r)
  | .ok false => renderCandidates data

/-- The line printed by the blocked branch, line 178. -/
def blockedLine (reason : JSON) : String :=
  "[Blocked] Reason: " ++ pyStr reason

/-- Observable effects of one run, in order.  The posted event records the
one HTTP POST attempt with its target (url, whose credential is key) and
its JSON payload. -/
inductive Event where
  | migrated
  | prompted
  | wroteConfig
  | printedHelp
  | openedEditor
  | uncaughtError
  | debugInfo (model temp : String)
  | posted (url key : String) (payload : JSON)
  | debugStatus (status : Nat)
  | httpError (status : Nat) (body : String)
  | connectionError
  | blockedMsg (reason : JSON)
  | answer (text : String)
  | noContentMsg
  | invalidFormatMsg
  | dumpedRaw

/-- Result of the one requests.post call: either a raised network-level
exception, or a completed response with its status code, raw text body and
the result of parsing that body as JSON. -/
inductive NetResult where
  | exn
  | resp (status : Nat) (text : String) (body : Except Unit JSON)

/-- One invocation of the script: argv (program name and the rest),
whether stdin is a tty and what it holds when piped, the data directory,
the answer the user would type at the key prompt, and how the network
behaves. -/
structure World where
  argv0 : String
  argvTail : List String
  stdinIsTTY : Bool
  stdinData : String
  fs : FS
  promptInput : String
  net : NetResult

/-- Result of a run: the trace of observable events and the process exit
code. -/
structure MainOut where
  events : List Event
  exitCode : Nat

/-- The flag strings filtered out of the query arguments, line 129. -/
def flagStrings : List String := ["--debug", "--config", "--help", "-h"]

/-- Query assembly from main, lines 131 to 142: piped stdin is read and
stripped, remaining arguments are appended after a newline; on a tty the
arguments joined with single spaces are the query; none means the help
branch (no input at all). -/
def assembleQuery (stdinIsTTY : Bool) (stdinData : String) (args : List String) : Option String :=
  if !stdinIsTTY then
    some (pyStrip stdinData ++
      (if args.isEmpty then "" else "\n" ++ String.intercalate " " args))
  else if !args.isEmpty then
    some (String.intercalate " " args)
  else
    none

/-- The endpoint URL built on line 151 from the model name and the key. -/
def apiUrl (model key : String) : String :=
  "https://generativelanguage.googleapis.com/v1beta/models/" ++ model ++
    ":generateContent?key=" ++ key

/-- Payload construction, lines 154 to 158. -/
def buildPayload (user_input : String) (system_instr gen_config : JSON) : JSON :=
  .obj [
    ("contents", .arr [.obj [("parts", .arr [.obj [("text", .str user_input)]])]]),
    ("systemInstruction", .obj [("parts", .arr [.obj [("text", system_instr)]])]),
    ("generationConfig", gen_config)]

/-- Whether --debug occurs anywhere in sys.argv, line 127. -/
def debugOf (w : World) : Bool :=
  (w.argv0 :: w.argvTail).contains "--debug"

/-- The try block of main, lines 163 to 196: the POST and everything done
with the response.  A network exception or any exception raised while
rendering reaches the except handler, which prints the connection error and
returns normally (exit 0); a non-200 status exits 1 through SystemExit,
which the handler does not catch. -/
def transportPhase (net : NetResult) (debugMode : Bool) (url key : String)
    (payload : JSON) : List Event × Nat :=
  match net with
  | .exn => ([.posted url key payload, .connectionError], 0)
  | .resp status text body =>
    let ev1 := Event.posted url key payload ::
      (if debugMode then [Event.debugStatus status] else [])
    if status ≠ 200 then
      (ev1 ++ [.httpError status text], 1)
    else
      match body with
      | .error _ => (ev1 ++ [.connectionError], 0)
      | .ok data =>
        match render data with
        | .error _ => (ev1 ++ [.connectionError], 0)
        | .ok (.blockedExit r) => (ev1 ++ [.blockedMsg r], 0)
        | .ok (.textOut s) => (ev1 ++ [.answer s], 0)
        | .ok .noContent =>
          (ev1 ++ [.noContentMsg] ++ (if debugMode then [.dumpedRaw] else []), 0)
        | .ok .invalidFormat =>
          (ev1 ++ [.invalidFormatMsg] ++ (if debugMode then [.dumpedRaw] else []), 0)

/-- Steps 3 to 5 of main, lines 144 to 196, once the query is assembled
and the configuration is known to be a dict with fields cf: read the
fields with their defaults, build URL and payload, print the debug banner
when debug mode is on (where gen_config.get on line 160 raises an uncaught
AttributeError if generation_config is not a dict), then run the try
block. -/
def withConfigObj (w : World) (user_input : String) (cf : List (String × JSON)) :
    List Event × Nat :=
  let api_key := dget cf "api_key" .null
  let model_name := dget cf "model_name" (.str "gemini-2.5-flash")
  let system_instr := dget cf "system_instruction" (.str "")
  let gen_config := dget cf "generation_config" (.obj [])
  let url := apiUrl (pyStr model_name) (pyStr api_key)
  let payload := buildPayload user_input system_instr gen_config
  if debugOf w then
    match gen_config with
    | .obj gf =>
      let r := transportPhase w.net (debugOf w) url (pyStr api_key) payload
      (Event.debugInfo (pyStr model_name) (pyStr (dget gf "temperature" .null)) :: r.1,
       r.2)
    | _ => ([.uncaughtError], 1)
  else
    transportPhase w.net (debugOf w) url (pyStr api_key) payload

/-- Main from the input-handling step on, lines 127 to 196, given the
loaded configuration: assemble the query (help and exit when there is no
input at all), then proceed with the configuration fields.  config.get on
a non-dict configuration raises an uncaught AttributeError (the value
returned by json.load need not be a dict), which ends the process with a
traceback and exit code 1. -/
def queryPhase (w : World) (config : JSON) : List Event × Nat :=
  match assembleQuery w.stdinIsTTY w.stdinData
      (w.argvTail.filter (fun a => !(flagStrings.contains a))) with
  | none => ([.printedHelp], 0)
  | some user_input =>
    match config with
    | .obj cf => withConfigObj w user_input cf
    | _ => ([.uncaughtError], 1)

/-- Events produced inside load_config, in the order the script prints and
acts: the migration notice and rename, the interactive prompt, the config
write. -/
def loadEvents (lo : LoadOut) : List Event :=
  (if lo.migrated then [Event.migrated] else []) ++
  (if lo.prompted then [Event.prompted] else []) ++
  (if lo.wrote then [Event.wroteConfig] else [])

/-- Main given the outcome of the load step: first the help flag check
(lines 121 and 122), then the config flag (124 and 125), then the query
path. -/
def mainWith (w : World) (lo : LoadOut) : MainOut :=
  let le := loadEvents lo
  match lo.result with
  | .error c => ⟨le, c⟩
  | .ok config =>
    if (w.argv0 :: w.argvTail).contains "--help" ||
       (w.argv0 :: w.argvTail).contains "-h" then
      ⟨le ++ [.printedHelp], 0⟩
    else if (w.argv0 :: w.argvTail).contains "--config" then
      ⟨le ++ [.openedEditor], 0⟩
    else
      let r := queryPhase w config
      ⟨le ++ r.1, r.2⟩

/-- The whole of main, lines 116 to 196.  Note the order: load_config runs
first (line 118), the help and config flags are handled afterwards (lines
121 to 125). -/
def main (w : World) : MainOut :=
  mainWith w (load_config w.fs w.promptInput)

/-- Whether an event is the POST attempt. -/
def isPosted : Event → Bool
  | .posted _ _ _ => true
  | _ => false

/-- Whether an event is a POST attempt whose URL credential is the empty
string. -/
def postedEmptyKey : Event → Bool
  | .posted _ k _ => k == ""
  | _ => false

/-- Events that can precede the POST attempt in a trace: config-store
effects and the debug banner. -/
def eventIsBenign : Event → Bool
  | .migrated => true
  | .prompted => true
  | .wroteConfig => true
  | .debugInfo _ _ => true
  | _ => false

/-- The candidates list of a response body, when the candidates key is
present and maps to a JSON list. -/
def candList (data : JSON) : Option (List JSON) :=
  match data.getField "candidates" with
  | some (.arr l) => some l
  | _ => none

/-- Documented blocked shape: a prompt-feedback object carrying a block
reason. -/
def blockShapeB (data : JSON) : Bool :=
  match data.getField "promptFeedback" with
  | some pf => (pf.getField "blockReason").isSome
  | none => false

/-- Whether a content object carries the full success path the renderer
prints: a parts list whose first element holds a text string. -/
def fullSuccessPath (content : JSON) : Bool :=
  match content.getField "parts" with
  | some (.arr (p :: _)) =>
    match p.getField "text" with
    | some (.str _) => true
    | _ => false
  | _ => false

/-- Documented success shape: a candidates list whose first element
contains a content object with the full printable path. -/
def successShapeB (data : JSON) : Bool :=
  match candList data with
  | some (c :: _) =>
    match c.getField "content" with
    | some content => fullSuccessPath content
    | none => false
  | _ => false

/-- Documented empty-success shape: a candidates list is present but its
first element lacks a content object. -/
def emptyShapeB (data : JSON) : Bool :=
  match candList data with
  | some (c :: _) => !(c.getField "content").isSome
  | _ => false

/-- Documented malformed shape: no candidates list is present at all. -/
def malformedShapeB (data : JSON) : Bool := (candList data).isNone

/-- A response body outside all documented renderer shapes: a candidates
list that is present but empty, or a first candidate whose content object
lacks the printable parts text, with no blocked shape. -/
def outsideShape (data : JSON) : Bool :=
  !(blockShapeB data || successShapeB data || emptyShapeB data || malformedShapeB data)

/-- Modelled from the spec: the claim about query assembly describes the
piped input as trimmed of TRAILING whitespace only; this definition follows
those words, for comparison with pyStrip used by the code. -/
def trimTrailingOnly (s : String) : String :=
  String.mk ((s.data.reverse.dropWhile isPyWhitespace).reverse)

/-- The content text of an outbound payload:
contents[0].parts[0].text. -/
def payloadText (p : JSON) : Option JSON :=
  match p.getField "contents" with
  | some (.arr (c :: _)) =>
    match c.getField "parts" with
    | some (.arr (q :: _)) => q.getField "text"
    | _ => none
  | _ => none

/-- A run with the help flag present but an unreadable (invalid JSON)
config file. -/
def c1badWorld : World :=
  ⟨"ai", ["--help"], true, "", ⟨some (.error ()), none, none⟩, "", .exn⟩

/-- A run with the short help flag and a readable config file. -/
def c1okWorld : World :=
  ⟨"ai", ["-h"], true, "", ⟨some (.ok (.obj [("api_key", .str "x")])), none, none⟩, "", .exn⟩

/-- A run whose pre-existing config file carries an empty api_key. -/
def c2emptyWorld : World :=
  ⟨"ai", ["hi"], true, "", ⟨some (.ok (.obj [("api_key", .str "")])), none, none⟩, "", .exn⟩

/-- A first run: no config file, a legacy key file with surrounding
whitespace, a query argument. -/
def c2okWorld : World :=
  ⟨"ai", ["hi"], true, "", ⟨none, some " abc ", none⟩, "", .exn⟩

/-- A blocked response body with reason SAFETY. -/
def safetyData : JSON :=
  .obj [("promptFeedback", .obj [("blockReason", .str "SAFETY")])]

/-- A run that receives the SAFETY blocked response. -/
def c6World : World :=
  ⟨"ai", ["hi"], true, "", ⟨some (.ok (.obj [("api_key", .str "k")])), none, none⟩, "",
   .resp 200 "raw" (.ok safetyData)⟩

/-- A run whose POST raises a network-level exception. -/
def c7exnWorld : World :=
  ⟨"ai", ["hi"], true, "", ⟨some (.ok (.obj [("api_key", .str "k")])), none, none⟩, "", .exn⟩

/-- A run whose POST completes with HTTP status 500 and body
server error. -/
def c7httpWorld : World :=
  ⟨"ai", ["hi"], true, "", ⟨some (.ok (.obj [("api_key", .str "k")])), none, none⟩, "",
   .resp 500 "server error" (.error ())⟩

/-- A 200 response whose candidates list is present but empty. -/
def c9World : World :=
  ⟨"ai", ["hi"], true, "", ⟨some (.ok (.obj [("api_key", .str "k")])), none, none⟩, "",
   .resp 200 "" (.ok (.obj [("candidates", .arr [])]))⟩

/-- C3 counterexample: the claim says the piped text is trimmed of
trailing whitespace; on piped input with a LEADING space and no arguments
the code strips both ends, so the assembled query differs from the
claimed trailing-only trim. -/
theorem piped_leading_whitespace_cex :
    assembleQuery false " hi" [] ≠ some (trimTrailingOnly " hi") := by
  decide

/-- C3 (amended): query assembly trims the piped text of leading AND
trailing whitespace; when non-flag arguments exist they follow after a
newline, joined by single spaces; on a tty with arguments the query is the
space-joined arguments. -/
theorem query_assembly_spec (stdinData : String) (args : List String) :
    (args = [] → assembleQuery false stdinData args = some (pyStrip stdinData)) ∧
    (args ≠ [] →
      assembleQuery false stdinData args =
        some (pyStrip stdinData ++ "\n" ++ String.intercalate " " args)) ∧
    (args ≠ [] → assembleQuery true stdinData args = some (String.intercalate " " args)) := by
  refine ⟨fun h => ?_, fun h => ?_, fun h => ?_⟩ <;>
    simp [assembleQuery, h, String.append_assoc]

/-- C3 witness: piped hello with newline plus argument world yields the
query of the spec example, and the interactive and no-argument cases
evaluate as stated. -/
theorem query_assembly_spec_witness :
    assembleQuery false "hello\n" ["world"] = some "hello\nworld" ∧
    assembleQuery true "hello\n" ["world"] = some "world" ∧
    assembleQuery false " x " [] = some "x" := by
  have h1 := query_assembly_spec "hello\n" ["world"]
  have h2 := query_assembly_spec " x " []
  refine ⟨?_, ?_, ?_⟩
  · rw [h1.2.1 (by decide)]; decide
  · rw [h1.2.2 (by decide)]; decide
  · rw [h2.1 rfl]; decide

/-- C4: when the config file exists but holds invalid JSON, load_config
prints the fix-or-delete message and exits 1, leaving the filesystem
untouched: no migration, no prompt, no write. -/
theorem invalid_config_fatal_no_write (fs : FS) (p : String)
    (h : fs.configFile = some (.error ())) :
    load_config fs p = ⟨.error 1, fs, false, false, false, true⟩ := by
  simp [load_config, h]

/-- C4 witness at a concrete filesystem with a legacy file also present. -/
theorem invalid_config_fatal_no_write_witness :
    load_config ⟨some (.error ()), some "legacy", none⟩ "zzz" =
      ⟨.error 1, ⟨some (.error ()), some "legacy", none⟩, false, false, false, true⟩ :=
  invalid_config_fatal_no_write _ _ rfl

/-- C5 counterexample: with a legacy key file whose content trims to the
empty string (and an empty prompt entry), the run ends with exit 1 and NO
config file, contrary to the claim that after every run starting from a
legacy file the config file exists with the migrated key. -/
theorem empty_legacy_migration_cex :
    (load_config ⟨none, some "\n", none⟩ "").fs.configFile = none ∧
    (load_config ⟨none, some "\n", none⟩ "").result = .error 1 := by
  exact ⟨rfl, rfl⟩

/-- C5 (amended): when the legacy key file trims to a NON-empty key and no
config file exists, one run leaves the config file holding the migrated
key with the legacy file renamed away to the backup; and whenever the
config file exists and parses, load_config returns its contents verbatim
without touching the legacy file or the backup. -/
theorem legacy_migration_nonempty_and_verbatim_reload
    (fs : FS) (p content : String)
    (h1 : fs.configFile = none) (h2 : fs.legacyKey = some content)
    (h3 : pyStrip content ≠ "") :
    load_config fs p =
      ⟨.ok (withKey (pyStrip content)),
       ⟨some (.ok (withKey (pyStrip content))), none, some content⟩,
       true, false, true, false⟩ ∧
    (∀ (fs2 : FS) (p2 : String) (j : JSON), fs2.configFile = some (.ok j) →
       load_config fs2 p2 = ⟨.ok j, fs2, false, false, false, false⟩) := by
  constructor
  · simp [load_config, h1, h2, h3]
  · intro fs2 p2 j hj
    simp [load_config, hj]

/-- C5 witness: a concrete migration run, and a concrete reload with both
the backup and a fresh legacy file present that is returned verbatim. -/
theorem legacy_migration_nonempty_and_verbatim_reload_witness :
    load_config ⟨none, some " k1 ", some "old"⟩ "zz" =
      ⟨.ok (withKey (pyStrip " k1 ")),
       ⟨some (.ok (withKey (pyStrip " k1 "))), none, some " k1 "⟩,
       true, false, true, false⟩ ∧
    load_config ⟨some (.ok (.str "v")), some "leg", some "bak"⟩ "q" =
      ⟨.ok (.str "v"), ⟨some (.ok (.str "v")), some "leg", some "bak"⟩,
       false, false, false, false⟩ := by
  have h := legacy_migration_nonempty_and_verbatim_reload
    ⟨none, some " k1 ", some "old"⟩ "zz" " k1 " rfl rfl (by decide)
  exact ⟨h.1, h.2 _ _ _ rfl⟩

/-- C8: the request payload carries the assembled query exactly as
contents[0].parts[0].text, for every system instruction and generation
config, hence for every configuration. -/
theorem payload_preserves_query_text (q : String) (si gc : JSON) :
    payloadText (buildPayload q si gc) = some (.str q) := rfl

/-- C10: an existing legacy key file is renamed to the backup before the
key is validated; when its content trims to empty and the prompt entry is
empty too, the run exits 1 with the legacy file already gone to the backup
and no config file written. -/
theorem empty_legacy_rename_not_atomic (fs : FS) (content p : String)
    (h1 : fs.configFile = none) (h2 : fs.legacyKey = some content)
    (h3 : pyStrip content = "") (h4 : pyStrip p = "") :
    load_config fs p = ⟨.error 1, ⟨none, none, some content⟩, true, true, false, false⟩ := by
  simp [load_config, h1, h2, h3, h4]

/-- C10 witness at a concrete filesystem. -/
theorem empty_legacy_rename_not_atomic_witness :
    load_config ⟨none, some " ", some "b"⟩ "" =
      ⟨.error 1, ⟨none, none, some " "⟩, true, true, false, false⟩ :=
  empty_legacy_rename_not_atomic _ _ _ rfl rfl (by decide) (by decide)

theorem loadEvents_all_benign (lo : LoadOut) :
    (loadEvents lo).all eventIsBenign = true := by
  unfold loadEvents
  cases lo.migrated <;> cases lo.prompted <;> cases lo.wrote <;> simp [eventIsBenign]

theorem benign_any_false (l : List Event) (p : Event → Bool)
    (hl : l.all eventIsBenign = true)
    (hp : ∀ e, eventIsBenign e = true → p e = false) :
    l.any p = false := by
  induction l with
  | nil => rfl
  | cons a t ih =>
    simp only [List.all_cons, Bool.and_eq_true] at hl
    simp [List.any_cons, hp a hl.1, ih hl.2]

theorem benign_isPosted (e : Event) (h : eventIsBenign e = true) :
    isPosted e = false := by
  cases e <;> simp_all [eventIsBenign, isPosted]

theorem benign_postedEmptyKey (e : Event) (h : eventIsBenign e = true) :
    postedEmptyKey e = false := by
  cases e <;> simp_all [eventIsBenign, postedEmptyKey]

theorem withConfigObj_decomp (w : World) (ui : String) (cf : List (String × JSON)) :
    (withConfigObj w ui cf).1.any isPosted = false ∨
    ∃ pre url key payload,
      (withConfigObj w ui cf).1 = pre ++ (transportPhase w.net (debugOf w) url key payload).1 ∧
      (withConfigObj w ui cf).2 = (transportPhase w.net (debugOf w) url key payload).2 ∧
      pre.all eventIsBenign = true := by
  simp only [withConfigObj]
  cases hd : debugOf w with
  | false =>
    right
    exact ⟨[], _, _, _, rfl, rfl, rfl⟩
  | true =>
    simp only [if_true]
    split
    · right
      exact ⟨[Event.debugInfo _ _], _, _, _, rfl, rfl, by simp [eventIsBenign]⟩
    · left; simp [isPosted]

theorem queryPhase_decomp (w : World) (config : JSON) :
    (queryPhase w config).1.any isPosted = false ∨
    ∃ pre url key payload,
      (queryPhase w config).1 = pre ++ (transportPhase w.net (debugOf w) url key payload).1 ∧
      (queryPhase w config).2 = (transportPhase w.net (debugOf w) url key payload).2 ∧
      pre.all eventIsBenign = true := by
  unfold queryPhase
  split
  · left; simp [isPosted]
  · split
    · exact withConfigObj_decomp w _ _
    · left; simp [isPosted]

theorem mainWith_decomp (w : World) (lo : LoadOut) :
    (mainWith w lo).events.any isPosted = false ∨
    ∃ pre url key payload,
      (mainWith w lo).events = pre ++ (transportPhase w.net (debugOf w) url key payload).1 ∧
      (mainWith w lo).exitCode = (transportPhase w.net (debugOf w) url key payload).2 ∧
      pre.all eventIsBenign = true := by
  unfold mainWith
  split
  · left
    exact benign_any_false _ _ (loadEvents_all_benign lo) benign_isPosted
  · split
    · left
      rw [List.any_append,
        benign_any_false _ _ (loadEvents_all_benign lo) benign_isPosted]
      simp [isPosted]
    · split
      · left
        rw [List.any_append,
          benign_any_false _ _ (loadEvents_all_benign lo) benign_isPosted]
        simp [isPosted]
      · rcases queryPhase_decomp w _ with hq | ⟨pre, u, k, p, he, hx, hb⟩
        · left
          rw [List.any_append,
            benign_any_false _ _ (loadEvents_all_benign lo) benign_isPosted, hq]
          rfl
        · right
          refine ⟨loadEvents lo ++ pre, u, k, p, ?_, hx, ?_⟩
          · show loadEvents lo ++ _ = _
            rw [he, List.append_assoc]
          · rw [List.all_append, loadEvents_all_benign, hb]
            rfl

theorem main_posted_decomp (w : World)
    (h : (main w).events.any isPosted = true) :
    ∃ pre url key payload,
      (main w).events = pre ++ (transportPhase w.net (debugOf w) url key payload).1 ∧
      (main w).exitCode = (transportPhase w.net (debugOf w) url key payload).2 ∧
      pre.all eventIsBenign = true := by
  rcases mainWith_decomp w (load_config w.fs w.promptInput) with hf | hd
  · rw [show (main w) = mainWith w (load_config w.fs w.promptInput) from rfl, hf] at h
    exact absurd h (by simp)
  · exact hd

theorem transport_exn (dbg : Bool) (u k : String) (p : JSON) :
    transportPhase .exn dbg u k p = ([.posted u k p, .connectionError], 0) := rfl

theorem transport_non200 (s : Nat) (t : String) (b : Except Unit JSON) (dbg : Bool)
    (u k : String) (p : JSON) (hs : s ≠ 200) :
    transportPhase (.resp s t b) dbg u k p =
      ((Event.posted u k p :: (if dbg then [Event.debugStatus s] else [])) ++
        [.httpError s t], 1) := by
  simp [transportPhase, hs]

theorem transport_200_render_error (t : String) (data : JSON) (dbg : Bool)
    (u k : String) (p : JSON) (hr : render data = .error ()) :
    transportPhase (.resp 200 t (.ok data)) dbg u k p =
      ((Event.posted u k p :: (if dbg then [Event.debugStatus 200] else [])) ++
        [.connectionError], 0) := by
  simp [transportPhase, hr]

theorem transport_200_blocked (t : String) (data r : JSON) (dbg : Bool)
    (u k : String) (p : JSON) (hr : render data = .ok (.blockedExit r)) :
    transportPhase (.resp 200 t (.ok data)) dbg u k p =
      ((Event.posted u k p :: (if dbg then [Event.debugStatus 200] else [])) ++
        [.blockedMsg r], 0) := by
  simp [transportPhase, hr]

/-- C7: when the POST is attempted, a network-level exception is caught at
the top level, the connection-error message is printed and the process
ends with exit code 0 (never non-zero); a completed response with a
non-200 status prints the status and raw body and exits with code 1. -/
theorem transport_exception_zero_http_error_one (w : World)
    (hpost : (main w).events.any isPosted = true) :
    (w.net = .exn →
      (main w).exitCode = 0 ∧ Event.connectionError ∈ (main w).events) ∧
    (∀ s t b, w.net = .resp s t b → s ≠ 200 →
      (main w).exitCode = 1 ∧ Event.httpError s t ∈ (main w).events) := by
  obtain ⟨pre, u, k, p, hev, hex, hben⟩ := main_posted_decomp w hpost
  constructor
  · intro hnet
    rw [hnet, transport_exn] at hev hex
    refine ⟨hex, ?_⟩
    rw [hev]
    simp
  · intro s t b hnet hs
    rw [hnet, transport_non200 s t b (debugOf w) u k p hs] at hev hex
    refine ⟨hex, ?_⟩
    rw [hev]
    cases hd : debugOf w <;> simp [hd] at hev ⊢

/-- C7 witness: a run whose POST raises gives exit 0 with the connection
error printed, and a run that receives status 500 with body server error
gives exit 1 with the status and body printed. -/
theorem transport_exception_zero_http_error_one_witness :
    ((main c7exnWorld).exitCode = 0 ∧ Event.connectionError ∈ (main c7exnWorld).events) ∧
    ((main c7httpWorld).exitCode = 1 ∧
      Event.httpError 500 "server error" ∈ (main c7httpWorld).events) := by
  have h1 := transport_exception_zero_http_error_one c7exnWorld rfl
  have h2 := transport_exception_zero_http_error_one c7httpWorld rfl
  exact ⟨h1.1 rfl, h2.2 500 "server error" (.error ()) rfl (by decide)⟩

theorem render_blockShape (data pf r : JSON)
    (hpf : data.getField "promptFeedback" = some pf)
    (hbr : pf.getField "blockReason" = some r) :
    render data = .ok (.blockedExit r) := by
  cases data <;> simp only [JSON.getField] at hpf <;> try exact absurd hpf (by simp)
  case obj fields =>
    cases pf <;> simp only [JSON.getField] at hbr <;> try exact absurd hbr (by simp)
    case obj pfl =>
      simp [render, blockedCheck, pyContains, pyGetStr, hpf, hbr]

/-- C6: for every parsed body whose prompt-feedback object contains a
block reason, the run that reaches the POST prints the blocked message
carrying that reason as its LAST output and exits 0; the printed line
contains the reason text. -/
theorem blocked_response_exits_zero (w : World) (t : String) (data pf r : JSON)
    (hnet : w.net = .resp 200 t (.ok data))
    (hpf : data.getField "promptFeedback" = some pf)
    (hbr : pf.getField "blockReason" = some r)
    (hpost : (main w).events.any isPosted = true) :
    (main w).exitCode = 0 ∧
    (main w).events.getLast? = some (.blockedMsg r) ∧
    (pyStr r).data <:+: (blockedLine r).data := by
  obtain ⟨pre, u, k, p, hev, hex, hben⟩ := main_posted_decomp w hpost
  have hr := render_blockShape data pf r hpf hbr
  rw [hnet, transport_200_blocked t data r (debugOf w) u k p hr] at hev hex
  refine ⟨hex, ?_, ?_⟩
  · rw [hev, show pre ++
        ((Event.posted u k p :: (if debugOf w then [Event.debugStatus 200] else [])) ++
          [Event.blockedMsg r]) =
        (pre ++ (Event.posted u k p ::
          (if debugOf w then [Event.debugStatus 200] else []))) ++
          [Event.blockedMsg r] by rw [List.append_assoc]]
    rw [List.getLast?_append_of_ne_nil _ (by simp)]
    rfl
  · exact ⟨("[Blocked] Reason: ").data, [], by
      simp [blockedLine, String.data_append]⟩

/-- C6 witness: the SAFETY blocked response gives exit 0, the blocked
message with reason SAFETY as the last event, and the printed line
contains SAFETY. -/
theorem blocked_response_exits_zero_witness :
    (main c6World).exitCode = 0 ∧
    (main c6World).events.getLast? = some (.blockedMsg (.str "SAFETY")) ∧
    ("SAFETY" : String).data <:+: (blockedLine (.str "SAFETY")).data :=
  blocked_response_exits_zero c6World "raw" safetyData
    (.obj [("blockReason", .str "SAFETY")]) (.str "SAFETY") rfl rfl rfl rfl

/-- C1 counterexample: with the help flag present but the config file
holding invalid JSON, the run exits 1 with NO help text (an empty event
trace), because load_config runs before the help check; this refutes the
claim that a help flag always yields the help text and exit 0 before any
config-file processing. -/
theorem help_flag_invalid_config_cex :
    (main c1badWorld).exitCode = 1 ∧ (main c1badWorld).events = [] :=
  ⟨rfl, rfl⟩

/-- C1 (amended): the config load, with its possible prompt and write,
runs BEFORE the help check; when it returns a configuration and the help
flag is present, the program prints the help text and exits 0 with no
further processing and no network call. -/
theorem help_flag_after_config_load (w : World) (cfg : JSON)
    (hres : (load_config w.fs w.promptInput).result = .ok cfg)
    (hflag : ((w.argv0 :: w.argvTail).contains "--help" ||
      (w.argv0 :: w.argvTail).contains "-h") = true) :
    main w = ⟨loadEvents (load_config w.fs w.promptInput) ++ [.printedHelp], 0⟩ ∧
    (main w).events.any isPosted = false := by
  have hmain : main w =
      ⟨loadEvents (load_config w.fs w.promptInput) ++ [.printedHelp], 0⟩ := by
    show mainWith w (load_config w.fs w.promptInput) = _
    unfold mainWith
    rw [hres, hflag]
    rfl
  refine ⟨hmain, ?_⟩
  rw [hmain, List.any_append,
    benign_any_false _ _ (loadEvents_all_benign _) benign_isPosted]
  simp [isPosted]

/-- C1 witness: a run with the short help flag and a readable config
prints the help text and exits 0 without posting. -/
theorem help_flag_after_config_load_witness :
    main c1okWorld =
      ⟨loadEvents (load_config c1okWorld.fs c1okWorld.promptInput) ++ [.printedHelp], 0⟩ ∧
    (main c1okWorld).events.any isPosted = false :=
  help_flag_after_config_load c1okWorld (.obj [("api_key", .str "x")]) rfl rfl

theorem load_config_create (fs : FS) (p : String) (h : fs.configFile = none) :
    (load_config fs p).result = .error 1 ∨
    ∃ k, k ≠ "" ∧ (load_config fs p).result = .ok (withKey k) := by
  unfold load_config
  rw [h]
  cases hleg : fs.legacyKey with
  | some content =>
    by_cases h0 : pyStrip content = ""
    · by_cases h1 : pyStrip p = ""
      · left; simp [h0, h1]
      · right; exact ⟨pyStrip p, h1, by simp [h0, h1]⟩
    · right; exact ⟨pyStrip content, h0, by simp [h0]⟩
  | none =>
    by_cases h1 : pyStrip p = ""
    · left; simp [h1]
    · right; exact ⟨pyStrip p, h1, by simp [h1]⟩

theorem withKey_obj (k : String) :
    withKey k = .obj [
      ("api_key", .str k),
      ("model_name", .str "gemini-2.5-flash"),
      ("system_instruction", .str
        ("You are a CLI assistant specific to Termux. " ++
         "Do NOT use Markdown. Do NOT use backticks. " ++
         "Do NOT use bolding. Just write plain text. " ++
         "Keep answers concise.")),
      ("generation_config", .obj [
        ("temperature", .num "0.7"),
        ("top_p", .num "0.9"),
        ("top_k", .num "40"),
        ("maxOutputTokens", .num "1024")])] := rfl

theorem transport_events_shape (net : NetResult) (dbg : Bool) (u k : String) (p : JSON) :
    ∃ rest, (transportPhase net dbg u k p).1 = Event.posted u k p :: rest ∧
      rest.any isPosted = false := by
  cases net with
  | exn => exact ⟨[.connectionError], rfl, by simp [isPosted]⟩
  | resp s t b =>
    unfold transportPhase
    repeat' split
    all_goals exact ⟨_, rfl, by simp [isPosted]⟩

theorem any_false_of_imp {l : List Event} {p q : Event → Bool}
    (himp : ∀ e, p e = true → q e = true) (h : l.any q = false) : l.any p = false := by
  induction l with
  | nil => rfl
  | cons a t ih =>
    simp only [List.any_cons, Bool.or_eq_false_iff] at h ⊢
    refine ⟨?_, ih h.2⟩
    cases hp : p a
    · rfl
    · exact absurd (himp a hp) (by simp [h.1])

theorem postedEmptyKey_imp_isPosted (e : Event) (h : postedEmptyKey e = true) :
    isPosted e = true := by
  cases e <;> simp_all [postedEmptyKey, isPosted]

theorem transport_no_empty_posted (net : NetResult) (dbg : Bool) (u k : String)
    (p : JSON) (hk : k ≠ "") :
    (transportPhase net dbg u k p).1.any postedEmptyKey = false := by
  obtain ⟨rest, hsh, hrest⟩ := transport_events_shape net dbg u k p
  rw [hsh]
  simp only [List.any_cons, Bool.or_eq_false_iff]
  constructor
  · simp [postedEmptyKey, hk]
  · exact any_false_of_imp postedEmptyKey_imp_isPosted hrest

theorem withConfigObj_no_empty (w : World) (ui : String) (cf : List (String × JSON))
    (k : String) (hk : k ≠ "") (hak : fieldLookup cf "api_key" = some (.str k)) :
    (withConfigObj w ui cf).1.any postedEmptyKey = false := by
  have hlook : dget cf "api_key" JSON.null = .str k := by
    simp [dget, hak]
  simp only [withConfigObj, hlook]
  have hstr : pyStr (JSON.str k) = k := rfl
  rw [hstr]
  cases hd : debugOf w with
  | false => exact transport_no_empty_posted _ _ _ _ _ hk
  | true =>
    simp only [if_true]
    split
    · simp only [List.any_cons, Bool.or_eq_false_iff]
      refine ⟨rfl, ?_⟩
      exact transport_no_empty_posted _ _ _ _ _ hk
    · simp [postedEmptyKey]

theorem withKey_api_key (k : String) :
    ∃ cf, withKey k = .obj cf ∧ fieldLookup cf "api_key" = some (.str k) := by
  exact ⟨_, withKey_obj k, rfl⟩

theorem mainWith_no_empty_posted (w : World) (lo : LoadOut) (k : String)
    (hk : k ≠ "") (hres : lo.result = .ok (withKey k)) :
    (mainWith w lo).events.any postedEmptyKey = false := by
  have hle := benign_any_false (loadEvents lo) postedEmptyKey
    (loadEvents_all_benign lo) benign_postedEmptyKey
  unfold mainWith
  cases hres2 : lo.result with
  | error c => exact hle
  | ok config =>
    rw [hres2] at hres
    injection hres with hcfg
    subst hcfg
    dsimp only
    split
    · rw [List.any_append, hle]
      simp [postedEmptyKey]
    · split
      · rw [List.any_append, hle]
        simp [postedEmptyKey]
      · dsimp only
        rw [List.any_append, hle, Bool.false_or]
        obtain ⟨cf, hwk, hak⟩ := withKey_api_key k
        rw [hwk]
        unfold queryPhase
        split
        · simp [postedEmptyKey]
        · exact withConfigObj_no_empty w _ cf k hk hak

/-- C2 (amended): the claimed invariant holds for configurations the
program itself creates: on a run with no config file, every POST carries a
non-empty key, because both the migration path and the prompt path reject
an empty key before writing the new configuration.  (A pre-existing config
file with an empty api_key is returned verbatim and does reach the POST,
see the counterexample.) -/
theorem fresh_config_never_posts_empty_key (w : World)
    (h : w.fs.configFile = none) :
    (main w).events.any postedEmptyKey = false := by
  show (mainWith w (load_config w.fs w.promptInput)).events.any postedEmptyKey = false
  rcases load_config_create w.fs w.promptInput h with herr | ⟨k, hk, hok⟩
  · unfold mainWith
    cases hres2 : (load_config w.fs w.promptInput).result with
    | error c =>
      exact benign_any_false _ _ (loadEvents_all_benign _) benign_postedEmptyKey
    | ok config =>
      rw [hres2] at herr
      exact absurd herr (by simp)
  · exact mainWith_no_empty_posted w _ k hk hok

/-- C2 counterexample: a pre-existing config file whose api_key is the
empty string reaches the network call, and the POST URL credential is
empty; the claimed invariant that an empty or missing api_key never
reaches the network call is false for loaded configurations. -/
theorem empty_key_config_posts_cex :
    (main c2emptyWorld).events.any postedEmptyKey = true ∧
    (main c2emptyWorld).events.any isPosted = true :=
  ⟨rfl, rfl⟩

/-- C2 witness: a first run migrating the legacy key posts with a
non-empty key. -/
theorem fresh_config_never_posts_empty_key_witness :
    (main c2okWorld).events.any postedEmptyKey = false :=
  fresh_config_never_posts_empty_key c2okWorld rfl

theorem candList_some (data : JSON) (l : List JSON) (h : candList data = some l) :
    data.getField "candidates" = some (.arr l) := by
  unfold candList at h
  split at h
  · injection h with h2
    subst h2
    assumption
  · cases h

theorem render_gate (fields : List (String × JSON))
    (hb : blockShapeB (.obj fields) = false) :
    render (.obj fields) = renderCandidates (.obj fields) ∨
    render (.obj fields) = .error () := by
  rcases hpf : fieldLookup fields "promptFeedback" with _ | pf
  · left
    simp [render, blockedCheck, pyContains, hpf]
  · have hbr : (pf.getField "blockReason").isSome = false := by
      unfold blockShapeB at hb
      simp only [JSON.getField] at hb
      rw [hpf] at hb
      exact hb
    cases pf with
    | obj pfl =>
      have hnone : fieldLookup pfl "blockReason" = none := by
        simp only [JSON.getField] at hbr
        exact Option.not_isSome_iff_eq_none.mp (by simp [hbr])
      left
      simp [render, blockedCheck, pyContains, pyGetStr, hpf, hnone]
    | str s =>
      cases hss : strContainsSub s "blockReason"
      · left; simp [render, blockedCheck, pyContains, pyGetStr, hpf, hss]
      · right; simp [render, blockedCheck, pyContains, pyGetStr, hpf, hss]
    | arr es =>
      cases hss : es.any (strElem "blockReason")
      · left; simp [render, blockedCheck, pyContains, pyGetStr, hpf, hss]
      · right; simp [render, blockedCheck, pyContains, pyGetStr, hpf, hss]
    | num nn => right; simp [render, blockedCheck, pyContains, pyGetStr, hpf]
    | bool bb => right; simp [render, blockedCheck, pyContains, pyGetStr, hpf]
    | null => right; simp [render, blockedCheck, pyContains, pyGetStr, hpf]

theorem renderContent_not_success (v : JSON) (hs : fullSuccessPath v = false) :
    renderContent v = .error () := by
  cases v with
  | obj vf =>
    rcases hpv : fieldLookup vf "parts" with _ | pv
    · simp [renderContent, pyGetStr, hpv]
    · cases pv with
      | arr pl =>
        cases pl with
        | nil => simp [renderContent, pyGetStr, pyGetFirst, hpv]
        | cons p ps =>
          cases p with
          | obj pfl =>
            rcases ht : fieldLookup pfl "text" with _ | tv
            · simp [renderContent, pyGetStr, pyGetFirst, hpv, ht]
            · cases tv with
              | str s =>
                exfalso
                simp [fullSuccessPath, JSON.getField, hpv, ht] at hs
              | null => simp [renderContent, pyGetStr, pyGetFirst, pyStripJ, hpv, ht]
              | bool bb => simp [renderContent, pyGetStr, pyGetFirst, pyStripJ, hpv, ht]
              | num nn => simp [renderContent, pyGetStr, pyGetFirst, pyStripJ, hpv, ht]
              | arr es => simp [renderContent, pyGetStr, pyGetFirst, pyStripJ, hpv, ht]
              | obj tf => simp [renderContent, pyGetStr, pyGetFirst, pyStripJ, hpv, ht]
          | null => simp [renderContent, pyGetStr, pyGetFirst, hpv]
          | bool bb => simp [renderContent, pyGetStr, pyGetFirst, hpv]
          | num nn => simp [renderContent, pyGetStr, pyGetFirst, hpv]
          | str ss => simp [renderContent, pyGetStr, pyGetFirst, hpv]
          | arr es => simp [renderContent, pyGetStr, pyGetFirst, hpv]
      | str ss =>
        obtain ⟨sd⟩ := ss
        cases sd with
        | nil => simp [renderContent, pyGetStr, pyGetFirst, hpv]
        | cons ch chs => simp [renderContent, pyGetStr, pyGetFirst, hpv]
      | null => simp [renderContent, pyGetStr, pyGetFirst, hpv]
      | bool bb => simp [renderContent, pyGetStr, pyGetFirst, hpv]
      | num nn => simp [renderContent, pyGetStr, pyGetFirst, hpv]
      | obj of => simp [renderContent, pyGetStr, pyGetFirst, hpv]
  | null => simp [renderContent, pyGetStr]
  | bool bb => simp [renderContent, pyGetStr]
  | num nn => simp [renderContent, pyGetStr]
  | str ss => simp [renderContent, pyGetStr]
  | arr es => simp [renderContent, pyGetStr]

theorem render_outside (data : JSON) (h : outsideShape data = true) :
    render data = .error () := by
  have h4 : blockShapeB data = false ∧ successShapeB data = false ∧
      emptyShapeB data = false ∧ malformedShapeB data = false := by
    simpa [outsideShape, and_assoc] using h
  obtain ⟨hb, hs, he, hm⟩ := h4
  rcases hcl : candList data with _ | l
  · exfalso
    unfold malformedShapeB at hm
    rw [hcl] at hm
    simp at hm
  have hcand := candList_some data l hcl
  cases data <;> simp only [JSON.getField] at hcand <;> try exact absurd hcand (by simp)
  case obj fields =>
    rcases render_gate fields hb with hrc | hre
    · rw [hrc]
      cases l with
      | nil => simp [renderCandidates, pyContains, pyGetStr, pyGetFirst, hcand]
      | cons c cs =>
        have he2 : (c.getField "content").isSome = true := by
          unfold emptyShapeB at he
          rw [hcl] at he
          simpa using he
        obtain ⟨v, hv⟩ := Option.isSome_iff_exists.mp he2
        cases c <;> simp only [JSON.getField] at hv <;> try exact absurd hv (by simp)
        case obj cfl =>
          have hfs : fullSuccessPath v = false := by
            unfold successShapeB at hs
            rw [hcl] at hs
            simp only [JSON.getField] at hs
            rw [hv] at hs
            exact hs
          simp [renderCandidates, pyContains, pyGetStr, pyGetFirst, hcand, hv,
            renderContent_not_success v hfs]
    · exact hre

/-- C9: a 200 JSON response whose shape is outside the documented renderer
shapes (a candidates list present but empty, or a first candidate whose
content object lacks the printable parts text) makes the renderer raise;
the top-level handler prints the connection-error message, the process
exits 0, and neither the no-content notice nor the invalid-format notice
is printed. -/
theorem undocumented_shape_connection_error (w : World) (t : String) (data : JSON)
    (hnet : w.net = .resp 200 t (.ok data))
    (hout : outsideShape data = true)
    (hpost : (main w).events.any isPosted = true) :
    (main w).exitCode = 0 ∧ Event.connectionError ∈ (main w).events ∧
    Event.noContentMsg ∉ (main w).events ∧
    Event.invalidFormatMsg ∉ (main w).events := by
  obtain ⟨pre, u, k, p, hev, hex, hben⟩ := main_posted_decomp w hpost
  have hr := render_outside data hout
  rw [hnet, transport_200_render_error t data (debugOf w) u k p hr] at hev hex
  refine ⟨hex, ?_, ?_, ?_⟩
  · rw [hev]
    simp
  · rw [hev]
    intro hmem
    rcases List.mem_append.mp hmem with hm | hm
    · have := List.all_eq_true.mp hben _ hm
      simp [eventIsBenign] at this
    · cases hd : debugOf w <;> simp [hd] at hm
  · rw [hev]
    intro hmem
    rcases List.mem_append.mp hmem with hm | hm
    · have := List.all_eq_true.mp hben _ hm
      simp [eventIsBenign] at this
    · cases hd : debugOf w <;> simp [hd] at hm

/-- C9 witness: the empty-candidates response gives exit 0 with the
connection error printed and neither notice printed. -/
theorem undocumented_shape_connection_error_witness :
    (main c9World).exitCode = 0 ∧ Event.connectionError ∈ (main c9World).events ∧
    Event.noContentMsg ∉ (main c9World).events ∧
    Event.invalidFormatMsg ∉ (main c9World).events :=
  undocumented_shape_connection_error c9World "" (.obj [("candidates", .arr [])])
    rfl rfl rfl

end Termai
